import Mathlib

/-!
Verification of the DevonRoutes scripts (`import_osm.py`, `setup_routing.py`,
`test_routing.py`): a shallow embedding of the scripts' environment handling,
subprocess invocation, SQL statement sequence and the denotation of each SQL
statement on an explicit database state, together with theorems settling the
specification claims.

Machine conventions: SQL `double precision` values (geometry lengths, costs)
are embedded as `ℚ`; SQL `NULL` as `Option.none`; the filesystem, the
environment and the subprocess runner as explicit function arguments; process
exit as `Except` with the exit code.
-/

namespace DevonRoutes

/-- Fixed Geofabrik download URL (`OSM_URL` in `import_osm.py`). -/
def OSM_URL : String :=
  "https://download.geofabrik.de/europe/united-kingdom/england/devon-latest.osm.pbf"

/-- Local file name of the OSM extract (`OSM_FILE` in `import_osm.py`). -/
def OSM_FILE : String := "devon-latest.osm.pbf"

/-! ## `get_database_url` (identical in all three scripts) -/

/-- The function `get_database_url` of the scripts (it is textually identical
in all three source files).  `os.environ.get` returns `none` when the variable
is absent; Python's `if not database_url` is also taken when the value is the
empty string.  The `Except` error carries the printed message and the exit
code passed to `sys.exit`. -/
def get_database_url (env : String → Option String) : Except (String × Nat) String :=
  match env ("DATABASE_URL") with
  | none => .error ("ERROR: DATABASE_URL environment variable not set", 1)
  | some s =>
    if s = "" then .error ("ERROR: DATABASE_URL environment variable not set", 1)
    else .ok s

/-! ## `download_osm_data` (`import_osm.py`) -/

/-- Filesystem state: file contents indexed by path, abstracted to `Nat`. -/
structure FileSys where
  contents : String → Option Nat

/-- The function `download_osm_data`: if `OSM_FILE` exists the function
returns at once; otherwise it fetches `OSM_URL` into `OSM_FILE` via
`urllib.request.urlretrieve`.  `fetch` abstracts the network; the returned list
records the URLs downloaded, in order. -/
def download_osm_data (fs : FileSys) (fetch : String → Nat) : FileSys × List String :=
  if (fs.contents OSM_FILE).isSome then
    (fs, [])
  else
    (⟨fun p => if p = OSM_FILE then some (fetch OSM_URL) else fs.contents p⟩, [OSM_URL])

/-! ## `import_osm_data` (`import_osm.py`) -/

/-- The argument list `cmd` that `import_osm_data` constructs (lines 68–75 of
the importer script), including the `-S` style argument chosen by whether
`default.style` exists in the working directory.  This list is built by the
code but, as `importInvokedArgv` shows, not the one passed to
`subprocess.run`. -/
def importCmdConstructed (database_url : String) (defaultStyleExists : Bool) : List String :=
  ["osm2pgsql", "--create", "--slim", "-d", database_url,
   "-S", if defaultStyleExists then "default.style"
         else "/nix/store/*/share/osm2pgsql/default.style",
   OSM_FILE]

/-- The argument list actually passed to `subprocess.run` by `import_osm_data`
(line 78 of the importer script). -/
def importInvokedArgv (database_url : String) : List String :=
  ["osm2pgsql", "--create", "--slim", "-d", database_url, OSM_FILE]

/-- The function `import_osm_data`: runs `osm2pgsql` once with
`importInvokedArgv`, then exits with code 1 when the return code is non-zero.
`runner` abstracts `subprocess.run`, mapping an argv to a return code; the
`.ok` payload lists the invocations performed. -/
def import_osm_data (database_url : String) (runner : List String → Int) :
    Except (String × Nat) (List (List String)) :=
  let argv := importInvokedArgv database_url
  if runner argv ≠ 0 then .error ("ERROR: osm2pgsql import failed", 1)
  else .ok [argv]

/-! ## `execute_sql` (`setup_routing.py`) -/

/-- A psycopg2 connection over database states `σ`: the last committed state and
the pending (in-transaction) state. -/
structure Conn (σ : Type) where
  committed : σ
  pending : σ

/-- The function `execute_sql` of `setup_routing.py`: executes `stmt` on the connection's
pending state; on success it commits and returns `true`, on a database error it
rolls the transaction back to the committed state, prints the error and returns
`false`.  The third component is the text printed. -/
def execute_sql {σ : Type} (conn : Conn σ) (stmt : σ → Except String σ)
    (description : String) : Conn σ × Bool × List String :=
  match stmt conn.pending with
  | .ok s =>
      (⟨s, s⟩, true, ["  " ++ description ++ "...", "  ✓ " ++ description ++ " complete"])
  | .error e =>
      (⟨conn.committed, conn.committed⟩, false,
       ["  " ++ description ++ "...", "  ✗ Error: " ++ e])

/-! ## `CREATE EXTENSION IF NOT EXISTS` -/

/-- Modelled from the spec: PostgreSQL's `CREATE EXTENSION IF NOT EXISTS e`
(executed by the external database server, not implemented in this repository)
installs extension `e` when it is not yet installed and is a successful no-op
when it already is.  The database's extension state is the list of installed
extension names; the `Bool` is success. -/
def createExtensionIfNotExists (e : String) (exts : List String) : List String × Bool :=
  if e ∈ exts then (exts, true) else (e :: exts, true)

/-! ## The routing tables (`setup_routing.py`) -/

/-- A PostGIS geometry, abstracted to what the scripts use of it: its
`ST_Length`, embedded as `ℚ`. -/
structure Geom where
  len : ℚ
deriving DecidableEq

/-- A row of `planet_osm_line` (produced by the external `osm2pgsql` importer),
restricted to the columns `setup_routing.py` selects.  `highway`, `name` and
`way` are nullable. -/
structure LineRow where
  osm_id : Int
  highway : Option String
  name : Option String
  way : Option Geom
deriving DecidableEq

/-- A row of `routing_edges` as created by `setup_routing.py`'s
`CREATE TABLE routing_edges AS SELECT ...` statement. -/
structure Edge where
  edge_id : Nat
  osm_id : Int
  highway : Option String
  name : Option String
  way : Geom
  source : Option Int
  target : Option Int
  cost : Option ℚ
  reverse_cost : Option ℚ
deriving DecidableEq

/-- The `CREATE TABLE routing_edges AS SELECT row_number() OVER () as edge_id,
..., NULL::integer as source, NULL::integer as target, NULL::double precision
as cost, NULL::double precision as reverse_cost FROM planet_osm_line WHERE way
IS NOT NULL` statement (lines 63–77 of `setup_routing.py`): rows with a
non-NULL `way`, numbered from 1. -/
def numberEdges : Nat → List (LineRow × Geom) → List Edge
  | _, [] => []
  | i, (r, w) :: rest =>
      { edge_id := i
        osm_id := r.osm_id
        highway := r.highway
        name := r.name
        way := w
        source := none
        target := none
        cost := none
        reverse_cost := none } :: numberEdges (i + 1) rest

/-- The statement `CREATE TABLE routing_edges AS SELECT ... FROM
planet_osm_line WHERE way IS NOT NULL` keeps the rows with a non-NULL `way`,
numbering them 1, 2, ... in scan order via `row_number() OVER ()`. -/
def createRoutingEdges (lines : List LineRow) : List Edge :=
  numberEdges 1 (lines.filterMap fun r => r.way.map fun w => (r, w))

/-- The `CASE` expression of the cost `UPDATE` (lines 125–136 of
`setup_routing.py`), applied to a non-NULL `highway` value. -/
def costMultiplier (highway : String) : ℚ :=
  if highway ∈ ["footway", "path", "pedestrian", "steps"] then 1
  else if highway ∈ ["track", "bridleway"] then 11/10
  else if highway ∈ ["cycleway"] then 12/10
  else if highway ∈ ["residential", "living_street", "service"] then 13/10
  else if highway ∈ ["unclassified", "tertiary", "tertiary_link"] then 14/10
  else if highway ∈ ["secondary", "secondary_link"] then 15/10
  else if highway ∈ ["primary", "primary_link"] then 18/10
  else if highway ∈ ["trunk", "trunk_link"] then 25/10
  else if highway ∈ ["motorway", "motorway_link"] then 10
  else 15/10

/-- One row's effect of `UPDATE routing_edges SET cost = ST_Length(way) * CASE
... END WHERE highway IS NOT NULL AND source IS NOT NULL` (lines 122–138 of
`setup_routing.py`): rows failing the `WHERE` clause are untouched. -/
def updateCostRow (e : Edge) : Edge :=
  match e.highway, e.source with
  | some h, some _ => { e with cost := some (e.way.len * costMultiplier h) }
  | _, _ => e

/-- The whole cost `UPDATE` over the table. -/
def updateCosts (t : List Edge) : List Edge := t.map updateCostRow

/-- One row's effect of `UPDATE routing_edges SET reverse_cost = cost WHERE
cost IS NOT NULL` (lines 140–144 of `setup_routing.py`). -/
def updateReverseRow (e : Edge) : Edge :=
  match e.cost with
  | some _ => { e with reverse_cost := e.cost }
  | none => e

/-- The whole reverse-cost `UPDATE` over the table. -/
def updateReverseCosts (t : List Edge) : List Edge := t.map updateReverseRow

/-- Modelled from the spec: the external `pgr_createTopology('routing_edges',
1.0, 'way', 'edge_id')` call (pgRouting, not implemented in this repository)
fills the `source` and `target` columns of `routing_edges` and builds the
companion `routing_edges_vertices_pgr` table, touching nothing else.  `topo`
abstracts the vertex assignment it computes per `edge_id`. -/
def assignRow (topo : Nat → Option Int × Option Int) (e : Edge) : Edge :=
  { e with source := (topo e.edge_id).1, target := (topo e.edge_id).2 }

/-- The topology assignment over the whole `routing_edges` table. -/
def assignTopology (topo : Nat → Option Int × Option Int) (t : List Edge) : List Edge :=
  t.map (assignRow topo)

/-- The database state the scripts act on.  Tables are `Option` lists so that
`DROP TABLE` is observable; `indexes` and `constraints` record the names added
by `CREATE INDEX` / `ALTER TABLE ... ADD PRIMARY KEY`; `vertices` is the
`routing_edges_vertices_pgr` table, its rows abstracted to vertex ids. -/
structure DB where
  extensions : List String
  planet_osm_line : List LineRow
  routing_edges : Option (List Edge)
  vertices : Option (List Int)
  indexes : List String
  constraints : List String

/-- The successful-run denotation of `setup_routing.py`'s `main` (lines
43–175): the sequence of SQL statements it issues, each translated to its
effect on the database state.  `topo` abstracts the vertex assignment and
`mkV` the vertex table computed by the external `pgr_createTopology`; the
`SELECT` statements (`pgr_version`, counts, summary statistics) read state
and are omitted. -/
def setupMain (topo : Nat → Option Int × Option Int) (mkV : List Edge → List Int)
    (db : DB) : DB :=
  -- Step 1: CREATE EXTENSION IF NOT EXISTS pgrouting;
  let db := { db with extensions := (createExtensionIfNotExists ("pgrouting") db.extensions).1 }
  -- Step 2: DROP TABLE IF EXISTS routing_edges_vertices_pgr CASCADE;
  let db := { db with vertices := none }
  --         DROP TABLE IF EXISTS routing_edges CASCADE;
  let db := { db with routing_edges := none }
  --         CREATE TABLE routing_edges AS SELECT ... FROM planet_osm_line ...;
  let db := { db with routing_edges := some (createRoutingEdges db.planet_osm_line) }
  --         ALTER TABLE routing_edges ADD PRIMARY KEY (edge_id);
  let db := { db with constraints := "routing_edges_pkey" :: db.constraints }
  -- Step 3: CREATE INDEX IF NOT EXISTS routing_edges_way_idx ...;
  let db := { db with indexes := "routing_edges_way_idx" :: db.indexes }
  -- Step 4: SELECT pgr_createTopology('routing_edges', 1.0, 'way', 'edge_id');
  let db := { db with
                routing_edges := db.routing_edges.map (assignTopology topo)
                vertices := some (mkV ((db.routing_edges.map (assignTopology topo)).getD [])) }
  -- Step 5: CREATE INDEX IF NOT EXISTS routing_edges_source_idx / _target_idx;
  let db := { db with indexes := "routing_edges_target_idx" :: "routing_edges_source_idx" :: db.indexes }
  -- Step 6: UPDATE ... SET cost = ...;  UPDATE ... SET reverse_cost = cost ...;
  let db := { db with routing_edges := db.routing_edges.map updateCosts }
  { db with routing_edges := db.routing_edges.map updateReverseCosts }

/-! ## `pgr_dijkstra` result rows (`test_routing.py`) -/

/-- A row of the `pgr_dijkstra` result as selected by `test_routing.py`:
`seq, node, edge, cost, agg_cost`. -/
structure PathRow where
  seq : Nat
  node : Int
  edge : Int
  cost : ℚ
  agg_cost : ℚ
deriving DecidableEq

/-- Modelled from the spec: `pgr_dijkstra` (pgRouting, external to this
repository) returns the found path as rows in `seq` order, one per traversed
step `(node, edge, cost)`, where `agg_cost` is the cumulative cost from the
start vertex to the row's node — 0 at the first row, and thereafter the sum of
the preceding rows' costs. -/
def pgrDijkstraRows (acc : ℚ) (i : Nat) : List (Int × Int × ℚ) → List PathRow
  | [] => []
  | (n, e, c) :: rest =>
      { seq := i, node := n, edge := e, cost := c, agg_cost := acc } ::
        pgrDijkstraRows (acc + c) (i + 1) rest

/-- The per-highway-class cost multiplier exactly as the specification
enumerates it.  This definition is written from the spec's wording, to be
compared against `costMultiplier`, which is translated from the SQL `CASE`
expression. -/
def claimedMultiplier (h : String) : ℚ :=
  if h = "footway" ∨ h = "path" ∨ h = "pedestrian" ∨ h = "steps" then 1
  else if h = "track" ∨ h = "bridleway" then 11/10
  else if h = "cycleway" then 12/10
  else if h = "residential" ∨ h = "living_street" ∨ h = "service" then 13/10
  else if h = "unclassified" ∨ h = "tertiary" ∨ h = "tertiary_link" then 14/10
  else if h = "secondary" ∨ h = "secondary_link" then 15/10
  else if h = "primary" ∨ h = "primary_link" then 18/10
  else if h = "trunk" ∨ h = "trunk_link" then 25/10
  else if h = "motorway" ∨ h = "motorway_link" then 10
  else 15/10

/-- Concrete `planet_osm_line` row used to instantiate the theorems. -/
def lineEx : LineRow :=
  { osm_id := 1, highway := some ("footway"), name := none, way := some { len := 2 } }

/-- Concrete initial database state used to instantiate the theorems. -/
def dbEx : DB :=
  { extensions := [], planet_osm_line := [lineEx], routing_edges := none,
    vertices := none, indexes := [], constraints := [] }

/-- Concrete topology assignment used to instantiate the theorems. -/
def topoEx : Nat → Option Int × Option Int := fun _ => (some 1, some 2)

/-- Concrete vertex-table builder used to instantiate the theorems. -/
def mkVEx : List Edge → List Int := fun _ => []

/-- The routing edge that `setupMain` produces from `dbEx` with `topoEx`:
the example footway row, carried through topology assignment and the two
cost updates. -/
def edgeEx : Edge :=
  updateReverseRow (updateCostRow (assignRow topoEx
    { edge_id := 1, osm_id := 1, highway := some ("footway"), name := none,
      way := { len := 2 }, source := none, target := none,
      cost := none, reverse_cost := none }))

/-! ## Helper lemmas -/

lemma costMultiplier_eq_claimed (h : String) : costMultiplier h = claimedMultiplier h := by
  unfold costMultiplier claimedMultiplier
  simp only [List.mem_cons, List.mem_singleton, List.not_mem_nil, or_false]

lemma one_le_costMultiplier (h : String) : 1 ≤ costMultiplier h := by
  unfold costMultiplier
  split_ifs <;> norm_num

lemma mem_numberEdges {e : Edge} :
    ∀ (i : Nat) (l : List (LineRow × Geom)), e ∈ numberEdges i l →
      e.cost = none ∧ e.reverse_cost = none ∧ ∃ p ∈ l, e.way = p.2 := by
  intro i l
  induction l generalizing i with
  | nil => intro h; simp [numberEdges] at h
  | cons p rest ih =>
    intro h
    obtain ⟨r, w⟩ := p
    simp only [numberEdges, List.mem_cons] at h
    rcases h with h | h
    · subst h
      exact ⟨rfl, rfl, (r, w), List.mem_cons_self _ _, rfl⟩
    · obtain ⟨hc, hrc, q, hq, hw⟩ := ih (i + 1) h
      exact ⟨hc, hrc, q, List.mem_cons_of_mem _ hq, hw⟩

lemma mem_createRoutingEdges {lines : List LineRow} {e : Edge}
    (h : e ∈ createRoutingEdges lines) :
    e.cost = none ∧ e.reverse_cost = none ∧ ∃ r ∈ lines, r.way = some e.way := by
  obtain ⟨hc, hrc, p, hp, hw⟩ := mem_numberEdges 1 _ h
  rw [List.mem_filterMap] at hp
  obtain ⟨r, hr, hmap⟩ := hp
  rw [Option.map_eq_some'] at hmap
  obtain ⟨w, hrw, hpw⟩ := hmap
  refine ⟨hc, hrc, r, hr, ?_⟩
  rw [hrw, hw, ← hpw]

lemma updateCostRow_reverse (e : Edge) :
    (updateCostRow e).reverse_cost = e.reverse_cost := by
  cases eh : e.highway <;> cases es : e.source <;> simp [updateCostRow, eh, es]

lemma updateReverseRow_cost (e : Edge) : (updateReverseRow e).cost = e.cost := by
  cases ec : e.cost <;> simp [updateReverseRow, ec]

lemma updateCostRow_cost_nonneg {e : Edge} (hlen : 0 ≤ e.way.len) (hc : e.cost = none)
    {c : ℚ} (h : (updateCostRow e).cost = some c) : 0 ≤ c := by
  cases eh : e.highway with
  | none => simp [updateCostRow, eh, hc] at h
  | some hw =>
    cases es : e.source with
    | none => simp [updateCostRow, eh, es, hc] at h
    | some s =>
      simp only [updateCostRow, eh, es, Option.some.injEq] at h
      subst h
      exact mul_nonneg hlen (le_trans zero_le_one (one_le_costMultiplier hw))

lemma setupMain_routing_edges (topo : Nat → Option Int × Option Int)
    (mkV : List Edge → List Int) (db : DB) :
    (setupMain topo mkV db).routing_edges =
      some (updateReverseCosts (updateCosts (assignTopology topo
        (createRoutingEdges db.planet_osm_line)))) := rfl

lemma setupMain_cost_nonneg {topo : Nat → Option Int × Option Int}
    {mkV : List Edge → List Int} {db : DB}
    (hlen : ∀ r ∈ db.planet_osm_line, ∀ w, r.way = some w → 0 ≤ w.len)
    {e : Edge} (he : e ∈ ((setupMain topo mkV db).routing_edges).getD [])
    {c : ℚ} (hc : e.cost = some c) : 0 ≤ c := by
  rw [setupMain_routing_edges, Option.getD_some] at he
  unfold updateReverseCosts updateCosts assignTopology at he
  simp only [List.mem_map] at he
  obtain ⟨e2, ⟨e1, ⟨e0, he0, rfl⟩, rfl⟩, rfl⟩ := he
  obtain ⟨hc0, hrc0, r, hr, hw⟩ := mem_createRoutingEdges he0
  rw [updateReverseRow_cost] at hc
  refine updateCostRow_cost_nonneg ?_ ?_ hc
  · exact hlen r hr e0.way hw
  · exact hc0

lemma chain_pgrDijkstraRows (steps : List (Int × Int × ℚ)) :
    ∀ (a : ℚ) (i : Nat), (∀ s ∈ steps, 0 ≤ s.2.2) →
      List.Chain' (· ≤ ·) ((pgrDijkstraRows a i steps).map PathRow.agg_cost) := by
  induction steps with
  | nil => intro a i _; simp [pgrDijkstraRows]
  | cons s rest ih =>
    intro a i hpos
    obtain ⟨n, ed, c⟩ := s
    have hc : 0 ≤ c := hpos (n, ed, c) (List.mem_cons_self _ _)
    have hrest : ∀ t ∈ rest, 0 ≤ t.2.2 := fun t ht => hpos t (List.mem_cons_of_mem _ ht)
    simp only [pgrDijkstraRows, List.map_cons]
    rw [List.chain'_cons']
    refine ⟨?_, ih (a + c) (i + 1) hrest⟩
    intro y hy
    cases rest with
    | nil => simp [pgrDijkstraRows] at hy
    | cons t r =>
      obtain ⟨n2, ed2, c2⟩ := t
      simp only [pgrDijkstraRows, List.map_cons, List.head?_cons, Option.mem_def,
        Option.some.injEq] at hy
      subst hy
      linarith

/-! ## Claim theorems -/

/-- C1: in the cost-update statement of `setup_routing.py`, every row with a
non-NULL `highway` and non-NULL `source` gets `cost = ST_Length(way)` times
exactly the documented per-highway-class multiplier (1.0 for
footway/path/pedestrian/steps, 1.1 for track/bridleway, 1.2 for cycleway,
1.3 for residential/living_street/service, 1.4 for
unclassified/tertiary/tertiary_link, 1.5 for secondary/secondary_link, 1.8
for primary/primary_link, 2.5 for trunk/trunk_link, 10.0 for
motorway/motorway_link, 1.5 otherwise), and every row failing the `WHERE`
precondition is left entirely unchanged by the statement. -/
theorem claim_C1_cost_case (e : Edge) :
    (∀ h, e.highway = some h → e.source ≠ none →
        (updateCostRow e).cost = some (e.way.len * claimedMultiplier h)) ∧
    (e.highway = none ∨ e.source = none → updateCostRow e = e) := by
  constructor
  · intro h hh hs
    rcases es : e.source with _ | s
    · exact absurd es hs
    · simp [updateCostRow, hh, es, costMultiplier_eq_claimed]
  · rintro (hh | hs)
    · simp [updateCostRow, hh]
    · rcases eh : e.highway with _ | h
      · simp [updateCostRow, eh]
      · simp [updateCostRow, eh, hs]

/-- Witness for C1: a footway row with a `source` gets the multiplier of its
class, and a row with NULL `source` is left unchanged. -/
theorem claim_C1_cost_case_witness :
    (updateCostRow
        { edge_id := 1, osm_id := 7, highway := some ("footway"), name := none,
          way := { len := 2 }, source := some 3, target := some 4,
          cost := none, reverse_cost := none }).cost =
      some (2 * claimedMultiplier ("footway")) ∧
    updateCostRow
        { edge_id := 2, osm_id := 8, highway := some ("track"), name := none,
          way := { len := 5 }, source := none, target := none,
          cost := none, reverse_cost := none } =
      { edge_id := 2, osm_id := 8, highway := some ("track"), name := none,
        way := { len := 5 }, source := none, target := none,
        cost := none, reverse_cost := none } :=
  ⟨(claim_C1_cost_case _).1 ("footway") rfl (by simp),
   (claim_C1_cost_case _).2 (Or.inr rfl)⟩

/-- C2: `execute_sql` commits and returns `true` when the statement succeeds;
on a database error it rolls the transaction back — leaving the database state
exactly as it was before the statement, given that the connection had no other
pending work — prints the error, and returns `false` instead of
terminating. -/
theorem claim_C2_execute_sql {σ : Type} (conn : Conn σ) (stmt : σ → Except String σ)
    (d : String) (hinv : conn.pending = conn.committed) :
    (∀ e, stmt conn.pending = .error e →
        execute_sql conn stmt d =
          (conn, false, ["  " ++ d ++ "...", "  ✗ Error: " ++ e])) ∧
    (∀ s, stmt conn.pending = .ok s →
        execute_sql conn stmt d =
          (⟨s, s⟩, true, ["  " ++ d ++ "...", "  ✓ " ++ d ++ " complete"])) := by
  obtain ⟨cm, pd⟩ := conn
  have hpc : pd = cm := hinv
  subst hpc
  constructor
  · intro e he
    simp [execute_sql, he]
  · intro s hs
    simp [execute_sql, hs]

/-- Witness for C2: a failing statement leaves the state at 0 and returns
`false`; a succeeding statement commits the new state 1 and returns `true`. -/
theorem claim_C2_execute_sql_witness :
    execute_sql (⟨0, 0⟩ : Conn Nat) (fun _ => .error ("boom")) ("run step") =
      ((⟨0, 0⟩ : Conn Nat), false,
        ["  " ++ "run step" ++ "...", "  ✗ Error: " ++ "boom"]) ∧
    execute_sql (⟨0, 0⟩ : Conn Nat) (fun n => .ok (n + 1)) ("run step") =
      ((⟨1, 1⟩ : Conn Nat), true,
        ["  " ++ "run step" ++ "...", "  ✓ " ++ "run step" ++ " complete"]) :=
  ⟨(claim_C2_execute_sql ⟨0, 0⟩ (fun _ => .error ("boom")) ("run step") rfl).1 ("boom") rfl,
   (claim_C2_execute_sql ⟨0, 0⟩ (fun n => .ok (n + 1)) ("run step") rfl).2 1 rfl⟩

/-- C3: `import_osm_data` constructs an argument list containing the `-S`
style argument, but the list it actually passes to `subprocess.run` is a
different, hardcoded one that omits `-S` entirely — so the claimed invocation
argv (with the style file) is not the one used, although the importer is
indeed invoked exactly once. -/
theorem claim_C3_import_argv :
    importInvokedArgv ("postgresql://localhost/devon") ≠
      importCmdConstructed ("postgresql://localhost/devon") false ∧
    ("-S") ∉ importInvokedArgv ("postgresql://localhost/devon") ∧
    ("-S") ∈ importCmdConstructed ("postgresql://localhost/devon") false ∧
    import_osm_data ("postgresql://localhost/devon") (fun _ => 0) =
      .ok [importInvokedArgv ("postgresql://localhost/devon")] :=
  ⟨by decide, by decide, by decide, rfl⟩

/-- C4: `get_database_url` fails with the printed error and exit code 1 when
`DATABASE_URL` is absent, and returns the value unchanged when it is set to a
non-empty string. -/
theorem claim_C4_get_database_url (env : String → Option String) :
    (env ("DATABASE_URL") = none →
        get_database_url env =
          .error ("ERROR: DATABASE_URL environment variable not set", 1)) ∧
    (∀ s, env ("DATABASE_URL") = some s → s ≠ "" →
        get_database_url env = .ok s) := by
  constructor
  · intro h
    simp [get_database_url, h]
  · intro s h hs
    simp [get_database_url, h, hs]

/-- Witness for C4: an empty environment makes the function fail with exit
code 1, and an environment holding a URL makes it return that URL. -/
theorem claim_C4_get_database_url_witness :
    get_database_url (fun _ => none) =
      .error ("ERROR: DATABASE_URL environment variable not set", 1) ∧
    get_database_url
        (fun v => if v = "DATABASE_URL" then some ("postgresql://db/devon") else none) =
      .ok ("postgresql://db/devon") :=
  ⟨(claim_C4_get_database_url (fun _ => none)).1 rfl,
   (claim_C4_get_database_url _).2 ("postgresql://db/devon") (by simp) (by decide)⟩

/-- C5: when the `osm2pgsql` subprocess returns a non-zero code,
`import_osm_data` prints an error and exits with code 1; when it returns zero
the script is not terminated and proceeds (the function returns normally,
having invoked the importer exactly once). -/
theorem claim_C5_import_exit (database_url : String) (runner : List String → Int) :
    (runner (importInvokedArgv database_url) ≠ 0 →
        import_osm_data database_url runner =
          .error ("ERROR: osm2pgsql import failed", 1)) ∧
    (runner (importInvokedArgv database_url) = 0 →
        import_osm_data database_url runner = .ok [importInvokedArgv database_url]) := by
  constructor <;> intro h <;> simp [import_osm_data, h]

/-- Witness for C5: a runner returning 1 makes the import exit with code 1; a
runner returning 0 lets it continue. -/
theorem claim_C5_import_exit_witness :
    import_osm_data ("postgresql://db/devon") (fun _ => 1) =
      .error ("ERROR: osm2pgsql import failed", 1) ∧
    import_osm_data ("postgresql://db/devon") (fun _ => 0) =
      .ok [importInvokedArgv ("postgresql://db/devon")] :=
  ⟨(claim_C5_import_exit _ (fun _ => 1)).1 (by decide),
   (claim_C5_import_exit _ (fun _ => 0)).2 rfl⟩

/-- C6: `download_osm_data` treats `devon-latest.osm.pbf` as a cache — when
the file exists the filesystem is returned untouched and nothing is
downloaded; when it is absent, exactly one download from the fixed Geofabrik
URL is performed, writing that file and no other. -/
theorem claim_C6_download_cache (fs : FileSys) (fetch : String → Nat) :
    ((fs.contents OSM_FILE).isSome = true → download_osm_data fs fetch = (fs, [])) ∧
    (fs.contents OSM_FILE = none →
        (download_osm_data fs fetch).2 = [OSM_URL] ∧
        (download_osm_data fs fetch).1.contents OSM_FILE = some (fetch OSM_URL) ∧
        ∀ p, p ≠ OSM_FILE → (download_osm_data fs fetch).1.contents p = fs.contents p) := by
  constructor
  · intro h
    simp [download_osm_data, h]
  · intro h
    have h2 : (fs.contents OSM_FILE).isSome = false := by simp [h]
    refine ⟨by simp [download_osm_data, h2], by simp [download_osm_data, h2], ?_⟩
    intro p hp
    simp [download_osm_data, h2, hp]

/-- Witness for C6: with the file present the call is the identity with no
downloads; with it absent the fetched content is written and only the fixed
URL is downloaded. -/
theorem claim_C6_download_cache_witness :
    download_osm_data
        { contents := fun p => if p = OSM_FILE then some 7 else none } (fun _ => 9) =
      ({ contents := fun p => if p = OSM_FILE then some 7 else none }, []) ∧
    ((download_osm_data { contents := fun _ => none } (fun _ => 9)).2 = [OSM_URL] ∧
      (download_osm_data { contents := fun _ => none } (fun _ => 9)).1.contents OSM_FILE =
        some 9 ∧
      ∀ p, p ≠ OSM_FILE →
        (download_osm_data { contents := fun _ => none } (fun _ => 9)).1.contents p = none) :=
  ⟨(claim_C6_download_cache _ _).1 (by simp),
   (claim_C6_download_cache { contents := fun _ => none } (fun _ => 9)).2 rfl⟩

/-- C7: the rows of the `pgr_dijkstra` query of `test_routing.py`, in `seq`
order, carry a non-decreasing `agg_cost` sequence, for every choice of path
(hence of start and end vertex): every traversed edge is drawn from the
costed `routing_edges` table built by `setup_routing.py`, whose costs are
nonnegative whenever the geometry lengths are, and the cumulative costs of
nonnegative step costs are monotone. -/
theorem claim_C7_agg_cost_monotone (topo : Nat → Option Int × Option Int)
    (mkV : List Edge → List Int) (db : DB)
    (hlen : ∀ r ∈ db.planet_osm_line, ∀ w, r.way = some w → 0 ≤ w.len)
    (steps : List (Int × Int × ℚ))
    (hsteps : ∀ s ∈ steps, ∃ e ∈ ((setupMain topo mkV db).routing_edges).getD [],
        e.cost = some s.2.2) :
    List.Chain' (· ≤ ·) ((pgrDijkstraRows 0 1 steps).map PathRow.agg_cost) := by
  apply chain_pgrDijkstraRows
  intro s hs
  obtain ⟨e, he, hc⟩ := hsteps s hs
  exact setupMain_cost_nonneg hlen he hc

/-- Witness for C7: a one-step path over the edge produced from the example
footway row has a non-decreasing cumulative cost sequence. -/
theorem claim_C7_agg_cost_monotone_witness :
    List.Chain' (· ≤ ·)
      ((pgrDijkstraRows 0 1
          [((1 : Int), (1 : Int), 2 * costMultiplier ("footway"))]).map
        PathRow.agg_cost) :=
  claim_C7_agg_cost_monotone topoEx mkVEx dbEx
    (by
      intro r hr w hw
      rw [show dbEx.planet_osm_line = [lineEx] from rfl, List.mem_singleton] at hr
      subst hr
      rw [show lineEx.way = some { len := (2 : ℚ) } from rfl] at hw
      injection hw with hw2
      rw [← hw2]
      decide)
    [(1, 1, 2 * costMultiplier ("footway"))]
    (by
      intro s hs
      rw [List.mem_singleton] at hs
      subst hs
      refine ⟨edgeEx, ?_, rfl⟩
      rw [setupMain_routing_edges, Option.getD_some]
      exact List.mem_cons_self _ _)

/-- C8: the `CREATE EXTENSION IF NOT EXISTS` statements the scripts issue
(among them postgis, hstore and pgrouting) are idempotent and repeatable: a
second execution against the same database succeeds and leaves the installed
extensions exactly as after the first execution. -/
theorem claim_C8_create_extension_idempotent (exts : List String) (e : String) :
    (createExtensionIfNotExists e exts).2 = true ∧
    createExtensionIfNotExists e (createExtensionIfNotExists e exts).1 =
      ((createExtensionIfNotExists e exts).1, true) := by
  unfold createExtensionIfNotExists
  by_cases h : e ∈ exts
  · simp [h]
  · simp [h]

/-- C9: a complete run of `setup_routing.py`'s `main` reads but never writes
`planet_osm_line`: its contents after the run equal its contents before, for
every initial database state and every topology the external builder
computes. -/
theorem claim_C9_planet_osm_line_preserved (topo : Nat → Option Int × Option Int)
    (mkV : List Edge → List Int) (db : DB) :
    (setupMain topo mkV db).planet_osm_line = db.planet_osm_line := rfl

/-- C10: after `setup_routing.py`'s `main` completes, every `routing_edges`
row with a non-NULL cost has `reverse_cost` equal to `cost`, and every row
with a NULL cost has a NULL `reverse_cost`. -/
theorem claim_C10_reverse_cost_symmetric (topo : Nat → Option Int × Option Int)
    (mkV : List Edge → List Int) (db : DB) (e : Edge)
    (he : e ∈ ((setupMain topo mkV db).routing_edges).getD []) :
    (e.cost ≠ none → e.reverse_cost = e.cost) ∧
    (e.cost = none → e.reverse_cost = none) := by
  rw [setupMain_routing_edges, Option.getD_some] at he
  unfold updateReverseCosts updateCosts assignTopology at he
  simp only [List.mem_map] at he
  obtain ⟨e2, ⟨e1, ⟨e0, he0, rfl⟩, rfl⟩, rfl⟩ := he
  obtain ⟨hc0, hrc0, -⟩ := mem_createRoutingEdges he0
  have hrc1 : (updateCostRow (assignRow topo e0)).reverse_cost = none := by
    rw [updateCostRow_reverse]
    exact hrc0
  cases hc2 : (updateCostRow (assignRow topo e0)).cost with
  | none =>
    constructor
    · intro hne
      exfalso
      apply hne
      simp [updateReverseRow, hc2]
    · intro _
      simp [updateReverseRow, hc2, hrc1]
  | some c =>
    constructor
    · intro _
      simp [updateReverseRow, hc2]
    · intro h0
      exfalso
      simp [updateReverseRow, hc2] at h0

/-- Witness for C10: the edge produced from the example footway row has
`reverse_cost` equal to its (non-NULL) `cost`. -/
theorem claim_C10_reverse_cost_symmetric_witness :
    (edgeEx.cost ≠ none → edgeEx.reverse_cost = edgeEx.cost) ∧
    (edgeEx.cost = none → edgeEx.reverse_cost = none) :=
  claim_C10_reverse_cost_symmetric topoEx mkVEx dbEx edgeEx
    (by
      rw [setupMain_routing_edges, Option.getD_some]
      exact List.mem_cons_self _ _)

end DevonRoutes
